import Mathlib

/-!
# Verification of the Ai-Proctor real-time decision engine

Shallow embedding of `backend/app` (frame admission, gaze fusion and
calibration, audio anomaly accumulation, alert cooldown, AI verification,
and the per-frame orchestration in `ProctoringService.process_frame`),
with theorems settling the frozen claims about the specification.

Real-valued quantities (timestamps, energies, angles, thresholds,
confidences, pixel intensities) are modelled as rationals.  Python dicts
whose key set matters are modelled as association lists; external
collaborators (MediaPipe, YOLO, SSIM, Gemini transport) appear as inputs
or oracle functions, exactly at the boundary where the source consumes
their results.
-/

namespace AiProctor

/-- A value stored in one of the Python result dictionaries. -/
inductive Val where
  | b (x : Bool)
  | s (x : String)
  | q (x : ℚ)
  | none
  deriving DecidableEq, Repr

/-- A result dictionary: association list from string keys to values. -/
abbrev Dict := List (String × Val)

/-- Boolean read of a dict entry, mirroring `d['k']` used in a Python
`if` (a missing or non-boolean entry reads as false). -/
def getB (d : Dict) (k : String) : Bool :=
  match d.lookup k with
  | some (Val.b x) => x
  | _ => false

/-! ## FrameAnalyzer (`app/utils/frame_utils.py`)

A frame is abstracted by the one intrinsic feature the analyzer's own
code computes from it, the mean grayscale intensity; the SSIM score
between two frames is an external oracle `ssimFn` (in the source it is
`skimage.metrics.structural_similarity` over the decoded pixels). -/

/-- A video frame, abstracted by its mean grayscale intensity. -/
structure Frame where
  meanGray : ℚ
  deriving DecidableEq, Repr

/-- Mutable state of `FrameAnalyzer`. -/
structure FrameAnalyzerState where
  ssim_threshold : ℚ
  black_threshold : ℚ
  previous_frame : Option Frame
  frame_count : ℕ
  deriving DecidableEq, Repr

/-- `FrameAnalyzer.__init__` with the thresholds `ProctoringService`
passes (`ssim_threshold=0.95`, `black_threshold=30`). -/
def initFrameAnalyzer : FrameAnalyzerState :=
  { ssim_threshold := 95/100, black_threshold := 30
    previous_frame := Option.none, frame_count := 0 }

/-- `FrameAnalyzer.is_black_screen`: mean grayscale intensity below the
black threshold. -/
def isBlackScreen (st : FrameAnalyzerState) (f : Frame) : Bool :=
  f.meanGray < st.black_threshold

/-- `FrameAnalyzer.is_duplicate_frame`: increments `frame_count`,
never flags the first frame, compares the SSIM of the retained previous
frame against the threshold, and retains the incoming frame only when it
is not a duplicate. -/
def isDuplicateFrame (ssimFn : Frame → Frame → ℚ) (st : FrameAnalyzerState)
    (f : Frame) : Bool × FrameAnalyzerState :=
  let st1 := { st with frame_count := st.frame_count + 1 }
  match st.previous_frame with
  | Option.none => (false, { st1 with previous_frame := some f })
  | some prev =>
      if ssimFn prev f > st.ssim_threshold then
        (true, st1)
      else
        (false, { st1 with previous_frame := some f })

/-- `FrameAnalyzer.should_process_frame`: black-screen check first, then
optional decimation by `skip_mod`, then the duplicate check. -/
def shouldProcessFrame (ssimFn : Frame → Frame → ℚ) (st : FrameAnalyzerState)
    (f : Frame) (skip_mod : ℕ) : (Bool × String) × FrameAnalyzerState :=
  if isBlackScreen st f then
    ((false, "black_screen"), st)
  else if skip_mod > 1 ∧ st.frame_count % skip_mod ≠ 0 then
    ((false, "frame_skipped"), st)
  else
    let d := isDuplicateFrame ssimFn st f
    if d.1 then ((false, "duplicate_frame"), d.2)
    else ((true, "ok"), d.2)

/-- `FrameAnalyzer.reset`. -/
def frameAnalyzerReset (st : FrameAnalyzerState) : FrameAnalyzerState :=
  { st with previous_frame := Option.none, frame_count := 0 }

/-! ## EyeGazeTracker (`app/ml_models/eye_tracker.py`)

The MediaPipe face mesh, the iris contour analysis and the `solvePnP`
pose solver are external collaborators; `track_gaze` is embedded from
the point where their results are consumed (line 419 onward): the input
of a tracked frame is `none` when no face landmarks were found, and
otherwise carries the optional iris estimate (`detect_iris_position`,
already reduced to its `looking_away`/`direction` fields that
`track_gaze` reads) and the optional `(pitch, yaw, roll)` pose. -/

/-- Python's `abs` on a rational (defined by cases so that concrete
instances evaluate by `decide`). -/
def ratAbs (q : ℚ) : ℚ := if q < 0 then -q else q

/-- `np.median` of a list of rationals: sort ascending and take the
middle element, or the mean of the two middle elements when the length
is even (junk value 0 on the empty list, which `numpy` rejects). -/
def npMedian (l : List ℚ) : ℚ :=
  let s := l.insertionSort (· ≤ ·)
  let n := l.length
  if n % 2 = 1 then s.getD (n / 2) 0
  else (s.getD (n / 2 - 1) 0 + s.getD (n / 2) 0) / 2

/-- Mutable state of `EyeGazeTracker` (the fields `track_gaze`,
`calibrate`, `is_looking_away` and `reset` touch). -/
structure EyeState where
  threshold_seconds : ℚ
  looking_away_start : Option ℚ
  total_looking_away_time : ℚ
  head_rotation_threshold : ℚ
  neutral_pitch : ℚ
  neutral_yaw : ℚ
  neutral_roll : ℚ
  is_calibrated : Bool
  calibration_frames : List (ℚ × ℚ × ℚ)
  calibration_frame_count : ℕ
  deriving DecidableEq, Repr

/-- `EyeGazeTracker.__init__` with the threshold `ProctoringService`
passes (`settings.EYE_GAZE_THRESHOLD = 2.0`). -/
def initEyeState : EyeState :=
  { threshold_seconds := 2
    looking_away_start := Option.none
    total_looking_away_time := 0
    head_rotation_threshold := 25
    neutral_pitch := 0, neutral_yaw := 0, neutral_roll := 0
    is_calibrated := false
    calibration_frames := []
    calibration_frame_count := 10 }

/-- `EyeGazeTracker.calibrate`: buffer up to `calibration_frame_count`
head-pose samples; on the sample that fills the buffer, set the neutral
baseline to the per-axis `np.median` of the buffer and mark calibrated. -/
def calibrate (st : EyeState) (pitch yaw roll : ℚ) : EyeState :=
  if st.calibration_frames.length < st.calibration_frame_count then
    let frames := st.calibration_frames ++ [(pitch, yaw, roll)]
    if frames.length = st.calibration_frame_count then
      { st with
          calibration_frames := frames
          neutral_pitch := npMedian (frames.map (fun x => x.1))
          neutral_yaw := npMedian (frames.map (fun x => x.2.1))
          neutral_roll := npMedian (frames.map (fun x => x.2.2))
          is_calibrated := true }
    else
      { st with calibration_frames := frames }
  else
    st

/-- `EyeGazeTracker.is_looking_away`: deviation from the calibrated
neutral baseline (raw angles before calibration), yaw checked before
pitch against `HEAD_ROTATION_THRESHOLD`. -/
def isLookingAway (st : EyeState) (pitch yaw _roll : ℚ) : Bool × String :=
  let pitch_diff := if st.is_calibrated then pitch - st.neutral_pitch else pitch
  let yaw_diff := if st.is_calibrated then yaw - st.neutral_yaw else yaw
  if ratAbs yaw_diff > st.head_rotation_threshold then
    (true, if yaw_diff < 0 then "left" else "right")
  else if ratAbs pitch_diff > st.head_rotation_threshold then
    (true, if pitch_diff > 0 then "down" else "up")
  else
    (false, "center")

/-- The fields of `detect_iris_position`'s result that `track_gaze`
consumes. -/
structure IrisEstimate where
  looking_away : Bool
  direction : String
  deriving DecidableEq, Repr

/-- Per-frame collaborator results for one detected face: the optional
iris estimate and the optional head pose from `solvePnP`. -/
structure FaceInput where
  iris : Option IrisEstimate
  pose : Option (ℚ × ℚ × ℚ)
  deriving DecidableEq, Repr

/-- The result dictionary `track_gaze` returns when no face landmarks
are detected (lines 422-431 of `eye_tracker.py`), key for key. -/
def noFaceGazeDict : Dict :=
  [("face_detected", Val.b false),
   ("looking_away", Val.b false),
   ("gaze_direction", Val.s "unknown"),
   ("violation", Val.b false),
   ("duration", Val.q 0),
   ("pitch", Val.q 0),
   ("yaw", Val.q 0),
   ("roll", Val.q 0)]

/-- `EyeGazeTracker.track_gaze`, from the point where the collaborator
results are in hand: early return on no face; otherwise iris estimate
first, then calibration feeding and the head-pose check, fusing by
"head pose wins when the iris estimate is absent or the head is turned";
finally duration accounting and the violation threshold. `now` is
`time.time()`. -/
def trackGaze (st : EyeState) (face : Option FaceInput) (now : ℚ) :
    Dict × EyeState :=
  match face with
  | Option.none => (noFaceGazeDict, st)
  | some f =>
      let irisPair : Bool × String :=
        match f.iris with
        | some ir => (ir.looking_away, ir.direction)
        | Option.none => (false, "center")
      let step : EyeState × (ℚ × ℚ × ℚ) × (Bool × String) :=
        match f.pose with
        | some (p, y, r) =>
            let st1 := if st.is_calibrated then st else calibrate st p y r
            let head := isLookingAway st1 p y r
            if f.iris.isNone || head.1 then
              (st1, (p, y, r), head)
            else
              (st1, (p, y, r), irisPair)
        | Option.none => (st, (0, 0, 0), irisPair)
      let st1 := step.1
      let pitch := step.2.1.1
      let yaw := step.2.1.2.1
      let roll := step.2.1.2.2
      let looking_away := step.2.2.1
      let gaze_direction := step.2.2.2
      let start' : Option ℚ :=
        if looking_away then
          match st1.looking_away_start with
          | Option.none => some now
          | some t0 => some t0
        else
          Option.none
      let total' : ℚ :=
        if looking_away then
          st1.total_looking_away_time
        else
          st1.total_looking_away_time +
            (match st1.looking_away_start with
             | some t0 => now - t0
             | Option.none => 0)
      let duration : ℚ :=
        if looking_away then
          match st1.looking_away_start with
          | Option.none => 0
          | some t0 => now - t0
        else
          0
      let violation := duration > st1.threshold_seconds
      ([("face_detected", Val.b true),
        ("looking_away", Val.b looking_away),
        ("gaze_direction", Val.s gaze_direction),
        ("pitch", Val.q pitch),
        ("yaw", Val.q yaw),
        ("roll", Val.q roll),
        ("duration", Val.q duration),
        ("violation", Val.b violation),
        ("alert_type", if violation then Val.s "eyes_looking_away" else Val.none),
        ("total_away_time", Val.q total')],
       { st1 with looking_away_start := start', total_looking_away_time := total' })

/-- `EyeGazeTracker.reset` (note: the neutral baseline values are kept;
only the flag and the buffer are cleared). -/
def eyeReset (st : EyeState) : EyeState :=
  { st with
      looking_away_start := Option.none
      total_looking_away_time := 0
      is_calibrated := false
      calibration_frames := [] }

/-! ## AudioAnalyzer (`app/ml_models/audio_analyzer.py`)

An audio chunk is abstracted by its RMS energy (the only feature the
anomaly logic consumes besides the zero-crossing rate, which is reported
but never branched on).  The history deque (`maxlen=50`) is modelled
most-recent-first, so the previous chunk's energy is element 1. -/

/-- Mutable state of `AudioAnalyzer`. -/
structure AudioState where
  baseline_energy : Option ℚ
  history : List ℚ
  anomaly_count : ℕ
  last_anomaly_time : Option ℚ
  deriving DecidableEq, Repr

/-- `AudioAnalyzer.__init__`. -/
def initAudioState : AudioState :=
  { baseline_energy := Option.none, history := []
    anomaly_count := 0, last_anomaly_time := Option.none }

/-- The fields of `analyze_audio`'s result dictionary the claims are
about. -/
structure AudioResult where
  energy : ℚ
  has_speech : Bool
  anomaly_detected : Bool
  anomaly_type : Option String
  anomaly_count : ℕ
  violation : Bool
  deriving DecidableEq, Repr

/-- `AudioAnalyzer.analyze_audio` on a chunk of RMS energy `energy` at
time `now`: speech iff energy exceeds `0.02`; the baseline is set once,
on the first chunk with speech; a high-energy spike
(`baseline and energy > baseline * 2.5`, with Python float truthiness on
the baseline) increments the anomaly counter; a sudden change
(`|energy - prev| > 0.1` with speech) sets `anomaly_detected` without
touching the counter; the violation fires iff the counter exceeds 3 and
this chunk is anomalous. -/
def analyzeAudio (st : AudioState) (energy now : ℚ) : AudioResult × AudioState :=
  let has_speech := energy > 2/100
  let baseline :=
    if st.baseline_energy = Option.none ∧ has_speech then some energy
    else st.baseline_energy
  let history := energy :: st.history.take 49
  let spike : Bool :=
    match baseline with
    | some b => decide (b ≠ 0 ∧ energy > b * (5/2))
    | Option.none => false
  let count1 := if spike then st.anomaly_count + 1 else st.anomaly_count
  let sudden : Bool :=
    match history.get? 1 with
    | some prev => decide (ratAbs (energy - prev) > 1/10) && has_speech
    | Option.none => false
  let anomaly_detected : Bool := spike || sudden
  let anomaly_type : Option String :=
    if sudden then some "sudden_change"
    else if spike then some "high_energy_spike"
    else Option.none
  let last' := if anomaly_detected then some now else st.last_anomaly_time
  let violation : Bool := count1 > 3 ∧ anomaly_detected
  ({ energy, has_speech, anomaly_detected, anomaly_type
     anomaly_count := count1, violation },
   { baseline_energy := baseline, history
     anomaly_count := count1, last_anomaly_time := last' })

/-- `AudioAnalyzer.reset`. -/
def audioReset (_st : AudioState) : AudioState := initAudioState

/-! ## GeminiViolationVerifier (`app/services/gemini_verifier.py`)

The network transport and the JSON decoder are external; a verification
call is abstracted by its outcome: the model call raised (network
error), or a response text arrived whose JSON parse either failed or
produced a dictionary. -/

/-- The optional fields of the parsed Gemini response that
`verify_eye_tracking_violation` reads. -/
structure GeminiAnalysis where
  violation_confirmed : Option Bool
  is_genuine_violation : Option Bool
  confidence : Option ℚ
  deriving DecidableEq, Repr

/-- Outcome of one Gemini model call. -/
inductive GeminiCall where
  | networkError
  | response (parsed : Option GeminiAnalysis)
  deriving DecidableEq, Repr

/-- `GeminiViolationVerifier._parse_gemini_response`: the parsed
dictionary when JSON decoding succeeds, else the safe default
`{is_genuine_violation: True, confidence: 0.5}`. -/
def parseGeminiResponse : Option GeminiAnalysis → GeminiAnalysis
  | some a => a
  | Option.none =>
      { violation_confirmed := Option.none
        is_genuine_violation := some true
        confidence := some (1/2) }

/-- Result of a `verify_*_violation` call, reduced to the two fields the
service branches on. -/
structure VerifyResult where
  verified : Bool
  confidence : ℚ
  deriving DecidableEq, Repr

/-- `GeminiViolationVerifier.verify_eye_tracking_violation`: pass
through `(True, 1.0)` when disabled; on a network error from the model
call, return `(True, 1.0)` (fail open); otherwise read
`violation_confirmed` (falling back to `is_genuine_violation`, then
`True`) and `confidence` (default `0.5`) from the parsed response. -/
def verifyEyeTrackingViolation (enabled : Bool) (call : GeminiCall) :
    VerifyResult :=
  if ¬enabled then { verified := true, confidence := 1 }
  else
    match call with
    | GeminiCall.networkError => { verified := true, confidence := 1 }
    | GeminiCall.response p =>
        let a := parseGeminiResponse p
        { verified := a.violation_confirmed.getD (a.is_genuine_violation.getD true)
          confidence := a.confidence.getD (1/2) }

/-! ## ProctoringService (`app/services/proctoring_service.py`)

The service holds a single `FrameAnalyzer`, `EyeGazeTracker` and
`AudioAnalyzer` instance shared by every session, plus the global
cooldown table `last_alert_times` (a dict keyed by the string
`f"{session_id}_{alert_type}"`, modelled as an association list where an
assignment prepends the new binding) and the `session_data` dict.
Detector outputs (`check_multiple_faces`, `check_prohibited_objects`)
and the Gemini verifier's replies are per-frame inputs, as are the
collaborator results `track_gaze` consumes. -/

/-- The fields of `check_multiple_faces`'s result that `process_frame`
branches on. -/
structure FaceResult where
  violation : Bool
  num_faces : ℕ
  deriving DecidableEq, Repr

/-- The fields of `check_prohibited_objects`'s result that
`process_frame` branches on. -/
structure ObjectResult where
  violation : Bool
  has_phone : Bool
  deriving DecidableEq, Repr

/-- A violation record, reduced to the fields the claims are about. -/
structure Violation where
  vtype : String
  severity : String
  deriving DecidableEq, Repr

/-- An alert record (`ProctoringService._create_alert`), reduced to the
fields the claims are about. -/
structure Alert where
  atype : String
  severity : String
  requires_attention : Bool
  deriving DecidableEq, Repr

/-- `ProctoringService._create_alert`. -/
def createAlert (v : Violation) : Alert :=
  { atype := v.vtype, severity := v.severity
    requires_attention := v.severity = "high" ∨ v.severity = "critical" }

/-- An entry of `session_data`, reduced to the fields `start_session`
writes. -/
structure SessionInfo where
  start_time : ℚ
  status : String
  deriving DecidableEq, Repr

/-- Mutable state of `ProctoringService`. -/
structure ServiceState where
  frame_analyzer : FrameAnalyzerState
  eye_tracker : EyeState
  audio_analyzer : AudioState
  alert_cooldown : ℚ
  last_alert_times : List (String × ℚ)
  session_data : List (String × SessionInfo)
  frame_skip_mod : ℕ
  deriving DecidableEq, Repr

/-- `ProctoringService.__init__` (settings: `ALERT_COOLDOWN_SECONDS=3`,
`frame_skip_mod=1`). -/
def initServiceState : ServiceState :=
  { frame_analyzer := initFrameAnalyzer
    eye_tracker := initEyeState
    audio_analyzer := initAudioState
    alert_cooldown := 3
    last_alert_times := []
    session_data := []
    frame_skip_mod := 1 }

/-- `ProctoringService._should_create_alert`: first call for a
`(session, type)` key passes and records `now`; later calls pass iff
`now - last ≥ alert_cooldown`, and only a passing call updates the
stored timestamp. -/
def shouldCreateAlert (cooldown : ℚ) (last : List (String × ℚ))
    (session_id alert_type : String) (now : ℚ) :
    Bool × List (String × ℚ) :=
  let key := session_id ++ "_" ++ alert_type
  match last.lookup key with
  | Option.none => (true, (key, now) :: last)
  | some t0 =>
      if now - t0 ≥ cooldown then (true, (key, now) :: last)
      else (false, last)

/-- Verification-related settings consumed by `process_frame`
(`ENABLE_AI_VERIFICATION`, `AI_VERIFICATION_CONFIDENCE_THRESHOLD`). -/
structure Config where
  enable_ai : Bool
  ai_threshold : ℚ
  deriving DecidableEq, Repr

/-- The common shape of the three violation branches of `process_frame`
(multiple persons, lines 132-162; eyes looking away, lines 172-205;
prohibited object, lines 211-244): consult the cooldown first; when the
cooldown passes and AI verification is enabled, append the violation and
its alert only if the verifier confirms with confidence at or above the
threshold (an AI rejection appends nothing); when the cooldown passes
without verification, append both; when the cooldown suppresses, append
only the violation. -/
def violationStep (cfg : Config) (cooldown : ℚ) (last : List (String × ℚ))
    (session_id : String) (v : Violation) (verify : VerifyResult) (now : ℚ) :
    List Violation × List Alert × List (String × ℚ) :=
  let sa := shouldCreateAlert cooldown last session_id v.vtype now
  if sa.1 ∧ cfg.enable_ai then
    if verify.verified ∧ verify.confidence ≥ cfg.ai_threshold then
      ([v], [createAlert v], sa.2)
    else
      ([], [], sa.2)
  else if sa.1 then
    ([v], [createAlert v], sa.2)
  else
    ([v], [], sa.2)

/-- Per-frame collaborator results consumed by `process_frame`. -/
structure FrameInputs where
  frame : Frame
  face_result : FaceResult
  face_mesh : Option FaceInput
  object_result : ObjectResult
  verify_mp : VerifyResult
  verify_eye : VerifyResult
  verify_obj : VerifyResult
  now : ℚ
  deriving Repr

/-- The fields of `process_frame`'s result dictionary the claims are
about. -/
structure FrameOutput where
  status : String
  skip_reason : Option String
  violations : List Violation
  alerts : List Alert
  frame_processed : Bool
  deriving DecidableEq, Repr

/-- `ProctoringService.process_frame`: gate the frame through
`should_process_frame` (returning a `skipped` result when rejected);
then run, in order, the in-pipeline black-screen check, the
multiple-persons branch, the gaze branch (only when at least one face
was counted), and the prohibited-object branch (severity `critical`
when a phone was seen, else `high`); status `violations_detected` iff
any violation was appended. -/
def processFrame (ssimFn : Frame → Frame → ℚ) (cfg : Config)
    (st : ServiceState) (inp : FrameInputs) (session_id : String) :
    FrameOutput × ServiceState :=
  let gate := shouldProcessFrame ssimFn st.frame_analyzer inp.frame st.frame_skip_mod
  let fa1 := gate.2
  if ¬gate.1.1 then
    ({ status := "skipped", skip_reason := some gate.1.2
       violations := [], alerts := [], frame_processed := false },
     { st with frame_analyzer := fa1 })
  else
    let r0 : List Violation × List Alert × List (String × ℚ) :=
      if isBlackScreen fa1 inp.frame then
        let v : Violation := { vtype := "black_screen", severity := "high" }
        let sa := shouldCreateAlert st.alert_cooldown st.last_alert_times
          session_id "black_screen" inp.now
        ([v], if sa.1 then [createAlert v] else [], sa.2)
      else
        ([], [], st.last_alert_times)
    let r1 : List Violation × List Alert × List (String × ℚ) :=
      if inp.face_result.violation then
        violationStep cfg st.alert_cooldown r0.2.2 session_id
          { vtype := "multiple_persons", severity := "high" }
          inp.verify_mp inp.now
      else
        ([], [], r0.2.2)
    let tg := trackGaze st.eye_tracker inp.face_mesh inp.now
    let eye1 := if inp.face_result.num_faces ≥ 1 then tg.2 else st.eye_tracker
    let r2 : List Violation × List Alert × List (String × ℚ) :=
      if inp.face_result.num_faces ≥ 1 ∧ getB tg.1 "violation" = true then
        violationStep cfg st.alert_cooldown r1.2.2 session_id
          { vtype := "eyes_looking_away", severity := "medium" }
          inp.verify_eye inp.now
      else
        ([], [], r1.2.2)
    let r3 : List Violation × List Alert × List (String × ℚ) :=
      if inp.object_result.violation then
        violationStep cfg st.alert_cooldown r2.2.2 session_id
          { vtype := "prohibited_object"
            severity := if inp.object_result.has_phone then "critical" else "high" }
          inp.verify_obj inp.now
      else
        ([], [], r2.2.2)
    let violations := r0.1 ++ r1.1 ++ r2.1 ++ r3.1
    let alerts := r0.2.1 ++ r1.2.1 ++ r2.2.1 ++ r3.2.1
    ({ status := if violations = [] then "ok" else "violations_detected"
       skip_reason := Option.none
       violations, alerts, frame_processed := true },
     { st with frame_analyzer := fa1, eye_tracker := eye1
               last_alert_times := r3.2.2 })

/-- `ProctoringService.start_session`: record a fresh `session_data`
entry for the session and reset the (shared) eye tracker, audio
analyzer and frame analyzer. -/
def startSession (st : ServiceState) (session_id : String) (now : ℚ) :
    ServiceState :=
  { st with
      session_data :=
        (session_id, { start_time := now, status := "active" }) :: st.session_data
      eye_tracker := eyeReset st.eye_tracker
      audio_analyzer := audioReset st.audio_analyzer
      frame_analyzer := frameAnalyzerReset st.frame_analyzer }

/-! ## Spec-side definitions

Definitions written from the specification's words, to be compared with
the source-derived functions above. -/

/-- The head-pose decision rule as the spec states it (§4.2): given the
pitch and yaw deviations from the baseline, `|yaw deviation|` above the
rotation threshold means looking away left/right by sign; else
`|pitch deviation|` above it means looking away up/down by sign; else
center. -/
def specHeadPoseRule (pitch_dev yaw_dev thr : ℚ) : Bool × String :=
  if ratAbs yaw_dev > thr then
    (true, if yaw_dev < 0 then "left" else "right")
  else if ratAbs pitch_dev > thr then
    (true, if pitch_dev > 0 then "down" else "up")
  else
    (false, "center")

/-- A high-energy-spike anomaly as the spec states it: the baseline is
set and the chunk's energy exceeds 2.5 times it. -/
def specHighEnergySpike (baseline : Option ℚ) (energy : ℚ) : Bool :=
  match baseline with
  | some b => energy > 5/2 * b
  | Option.none => false

/-- A sudden-change anomaly as the spec states it: a previous chunk
exists, the absolute energy change from it exceeds 0.1, and speech is
present (RMS energy above the speech threshold 0.02). -/
def specSuddenChange (prev : Option ℚ) (energy : ℚ) : Bool :=
  match prev with
  | some p => decide (ratAbs (energy - p) > 1/10) && decide (energy > 2/100)
  | Option.none => false

/-! ## Concrete fixtures

Concrete states and inputs used by counterexamples and witnesses. -/

/-- SSIM oracle reporting every pair of frames as fully dissimilar. -/
def ssimZero : Frame → Frame → ℚ := fun _ _ => 0

/-- A bright (non-black) frame. -/
def brightFrame : Frame := { meanGray := 100 }

/-- A uniformly black frame. -/
def blackFrame : Frame := { meanGray := 0 }

/-- Eye-tracker state that has been looking away since time 0. -/
def eyeAwaySince0 : EyeState :=
  { initEyeState with looking_away_start := some 0 }

/-- Service state whose eye tracker has been looking away since time 0. -/
def svcEyesAway : ServiceState :=
  { initServiceState with eye_tracker := eyeAwaySince0 }

/-- Settings with AI verification enabled at the default confidence
threshold 0.7. -/
def cfgAI : Config := { enable_ai := true, ai_threshold := 7/10 }

/-- Settings with AI verification disabled. -/
def cfgNoAI : Config := { enable_ai := false, ai_threshold := 7/10 }

/-- The spec's stub verifier: confirms with confidence 0.4. -/
def stubVerifier04 : VerifyResult := { verified := true, confidence := 2/5 }

/-- Frame inputs for the eyes-looking-away scenario: one face, iris
estimate looking away left, no head pose, no other detections. -/
def eyesInput (ver : VerifyResult) (now : ℚ) : FrameInputs :=
  { frame := brightFrame
    face_result := { violation := false, num_faces := 1 }
    face_mesh := some { iris := some { looking_away := true, direction := "left" }
                        pose := Option.none }
    object_result := { violation := false, has_phone := false }
    verify_mp := { verified := true, confidence := 1 }
    verify_eye := ver
    verify_obj := { verified := true, confidence := 1 }
    now := now }

/-- The eyes-looking-away inputs with a black frame instead. -/
def blackInput : FrameInputs :=
  { eyesInput stubVerifier04 0 with frame := blackFrame }

/-- Audio state whose previous chunk had energy 0 (one silent chunk
seen, no baseline yet). -/
def audioPrev0 : AudioState := { initAudioState with history := [0] }

/-- Eye-tracker state that has completed calibration (at the neutral
zero baseline). -/
def calibEye : EyeState := { initEyeState with is_calibrated := true }

/-- Service state whose (shared) eye tracker has completed
calibration. -/
def calibratedSvc : ServiceState :=
  { initServiceState with eye_tracker := calibEye }

/-- Feed a list of head-pose samples through `calibrate`. -/
def feedCal (st : EyeState) (l : List (ℚ × ℚ × ℚ)) : EyeState :=
  l.foldl (fun s x => calibrate s x.1 x.2.1 x.2.2) st

/-! ## Helper lemmas -/

/-- Unfold one association-list lookup step into an `if`, a form the
simplifier can evaluate on string-keyed literal dictionaries. -/
theorem lookup_cons_if {α β} [BEq α] (a k : α) (b : β) (es : List (α × β)) :
    List.lookup a ((k, b) :: es) =
      if a == k then some b else List.lookup a es := by
  cases h : a == k <;> simp [List.lookup, h]

/-- `np.median` of a nonempty list whose elements are all equal to `p`
is `p`. -/
theorem npMedian_allEq (l : List ℚ) (p : ℚ) (hne : l ≠ [])
    (h : ∀ x ∈ l, x = p) : npMedian l = p := by
  unfold npMedian
  have hperm := List.perm_insertionSort (· ≤ ·) l
  have hlen : (l.insertionSort (· ≤ ·)).length = l.length :=
    List.length_insertionSort _ l
  have hmem : ∀ x ∈ l.insertionSort (· ≤ ·), x = p :=
    fun x hx => h x (hperm.mem_iff.mp hx)
  have hpos : 0 < l.length := List.length_pos.mpr hne
  have hget : ∀ i, i < l.length → (l.insertionSort (· ≤ ·)).getD i 0 = p := by
    intro i hi
    have hi' : i < (l.insertionSort (· ≤ ·)).length := by omega
    rw [List.getD_eq_getElem _ _ hi']
    exact hmem _ (List.getElem_mem hi')
  by_cases hpar : l.length % 2 = 1
  · rw [if_pos hpar, hget _ (by omega)]
  · rw [if_neg hpar, hget _ (by omega), hget _ (by omega)]
    ring

/-- Every violation appended by a `violationStep` branch is the given
violation. -/
theorem violationStep_violations (cfg : Config) (cooldown : ℚ)
    (last : List (String × ℚ)) (sid : String) (v : Violation)
    (ver : VerifyResult) (now : ℚ) :
    ∀ w ∈ (violationStep cfg cooldown last sid v ver now).1, w = v := by
  intro w hw
  simp only [violationStep] at hw
  split at hw
  · split at hw <;> simp_all
  · split at hw <;> simp_all

/-- Every alert appended by a `violationStep` branch is the alert
created from the given violation. -/
theorem violationStep_alerts (cfg : Config) (cooldown : ℚ)
    (last : List (String × ℚ)) (sid : String) (v : Violation)
    (ver : VerifyResult) (now : ℚ) :
    ∀ a ∈ (violationStep cfg cooldown last sid v ver now).2.1,
      a = createAlert v := by
  intro a ha
  simp only [violationStep] at ha
  split at ha
  · split at ha <;> simp_all
  · split at ha <;> simp_all

/-- Violations appended by an optional `violationStep` branch are the
given violation. -/
theorem ite_violationStep_violations {c : Prop} [Decidable c] (cfg : Config)
    (cooldown : ℚ) (last : List (String × ℚ)) (sid : String) (v : Violation)
    (ver : VerifyResult) (now : ℚ) :
    ∀ w ∈ (if c then violationStep cfg cooldown last sid v ver now
           else ([], [], last)).1, w = v := by
  split_ifs with h
  · exact violationStep_violations cfg cooldown last sid v ver now
  · intro w hw
    simp at hw

/-- Alerts appended by an optional `violationStep` branch are the alert
created from the given violation. -/
theorem ite_violationStep_alerts {c : Prop} [Decidable c] (cfg : Config)
    (cooldown : ℚ) (last : List (String × ℚ)) (sid : String) (v : Violation)
    (ver : VerifyResult) (now : ℚ) :
    ∀ a ∈ (if c then violationStep cfg cooldown last sid v ver now
           else ([], [], last)).2.1, a = createAlert v := by
  split_ifs with h
  · exact violationStep_alerts cfg cooldown last sid v ver now
  · intro a ha
    simp at ha

/-- A type other than the stepped violation's own type never occurs
among the violations of an optional `violationStep` branch. -/
theorem not_mem_ite_violationStep_vtype {c : Prop} [Decidable c]
    (cfg : Config) (cooldown : ℚ) (last : List (String × ℚ)) (sid : String)
    (v : Violation) (ver : VerifyResult) (now : ℚ) (s : String)
    (hv : ¬ v.vtype = s) :
    s ∉ ((if c then violationStep cfg cooldown last sid v ver now
          else ([], [], last)).1.map Violation.vtype) := by
  intro hs
  rw [List.mem_map] at hs
  obtain ⟨w, hw, hws⟩ := hs
  have hwv := ite_violationStep_violations (c := c) cfg cooldown last sid v
    ver now w hw
  exact hv (hwv ▸ hws)

/-- A type other than the stepped violation's own type never occurs
among the alerts of an optional `violationStep` branch. -/
theorem not_mem_ite_violationStep_atype {c : Prop} [Decidable c]
    (cfg : Config) (cooldown : ℚ) (last : List (String × ℚ)) (sid : String)
    (v : Violation) (ver : VerifyResult) (now : ℚ) (s : String)
    (hv : ¬ v.vtype = s) :
    s ∉ ((if c then violationStep cfg cooldown last sid v ver now
          else ([], [], last)).2.1.map Alert.atype) := by
  intro hs
  rw [List.mem_map] at hs
  obtain ⟨a, ha, has⟩ := hs
  have hav := ite_violationStep_alerts (c := c) cfg cooldown last sid v
    ver now a ha
  rw [hav] at has
  exact hv has

/-- `should_process_frame` never changes the black threshold (only the
retained frame and the counter are mutable). -/
theorem shouldProcessFrame_black_threshold (ssimFn : Frame → Frame → ℚ)
    (st : FrameAnalyzerState) (f : Frame) (m : ℕ) :
    ((shouldProcessFrame ssimFn st f m).2).black_threshold =
      st.black_threshold := by
  unfold shouldProcessFrame isDuplicateFrame
  cases hp : st.previous_frame with
  | none => split_ifs <;> rfl
  | some prev =>
      split_ifs
      all_goals
        by_cases hs : st.ssim_threshold < ssimFn prev f <;> simp [hs]

/-! ## Claims -/

/-- C2: for every `(sessionId, violationType)` pair, the cooldown check
passes on the first call (no prior entry), recording the current time; a
subsequent call passes if and only if the elapsed time since the last
passing call is at least the configured cooldown window, and only a
passing call updates the stored timestamp.  Hence for a fixed pair the
first violation check passes, a second before the window elapses fails
(leaving the table unchanged), and a third after the window elapses
passes again. -/
theorem C2_cooldown (cooldown : ℚ) (last : List (String × ℚ))
    (sid typ : String) (t t0 t1 t2 t3 : ℚ) :
    (last.lookup (sid ++ "_" ++ typ) = Option.none →
       shouldCreateAlert cooldown last sid typ t =
         (true, (sid ++ "_" ++ typ, t) :: last)) ∧
    (last.lookup (sid ++ "_" ++ typ) = some t0 →
       shouldCreateAlert cooldown last sid typ t =
         if t - t0 ≥ cooldown then (true, (sid ++ "_" ++ typ, t) :: last)
         else (false, last)) ∧
    (t2 - t1 < cooldown → cooldown ≤ t3 - t1 →
       (shouldCreateAlert cooldown [] sid typ t1).1 = true ∧
       (shouldCreateAlert cooldown
          (shouldCreateAlert cooldown [] sid typ t1).2 sid typ t2).1 = false ∧
       (shouldCreateAlert cooldown
          (shouldCreateAlert cooldown [] sid typ t1).2 sid typ t2).2 =
         (shouldCreateAlert cooldown [] sid typ t1).2 ∧
       (shouldCreateAlert cooldown
          (shouldCreateAlert cooldown
             (shouldCreateAlert cooldown [] sid typ t1).2 sid typ t2).2
          sid typ t3).1 = true) := by
  refine ⟨?_, ?_, ?_⟩
  · intro h
    simp [shouldCreateAlert, h]
  · intro h
    simp [shouldCreateAlert, h]
  · intro h2 h3
    have hk : ((sid ++ "_" ++ typ, t1) :: ([] : List (String × ℚ))).lookup
        (sid ++ "_" ++ typ) = some t1 := by
      simp [List.lookup]
    have c1 : shouldCreateAlert cooldown [] sid typ t1 =
        (true, [(sid ++ "_" ++ typ, t1)]) := by
      simp [shouldCreateAlert]
    have c2 : shouldCreateAlert cooldown [(sid ++ "_" ++ typ, t1)] sid typ t2 =
        (false, [(sid ++ "_" ++ typ, t1)]) := by
      simp only [shouldCreateAlert, hk]
      rw [if_neg (by linarith)]
    have c3 : (shouldCreateAlert cooldown [(sid ++ "_" ++ typ, t1)] sid typ t3).1 =
        true := by
      simp only [shouldCreateAlert, hk]
      rw [if_pos (by linarith)]
    refine ⟨?_, ?_, ?_, ?_⟩ <;> simp [c1, c2, c3]

/-- Witness for C2 at concrete inputs: cooldown 3, times 0, 1 and 5. -/
theorem C2_cooldown_witness :
    shouldCreateAlert 3 [] "s" "eyes_looking_away" 0 =
      (true, [("s_eyes_looking_away", 0)]) ∧
    shouldCreateAlert 3 [("s_eyes_looking_away", 0)] "s" "eyes_looking_away" 1 =
      (false, [("s_eyes_looking_away", 0)]) ∧
    (shouldCreateAlert 3
       (shouldCreateAlert 3
          (shouldCreateAlert 3 [] "s" "eyes_looking_away" 0).2
          "s" "eyes_looking_away" 1).2
       "s" "eyes_looking_away" 5).1 = true := by
  refine ⟨?_, ?_, ?_⟩
  · exact (C2_cooldown 3 [] "s" "eyes_looking_away" 0 0 0 0 0).1 rfl
  · have h := (C2_cooldown 3 [("s_eyes_looking_away", 0)] "s"
      "eyes_looking_away" 1 0 0 0 0).2.1 (by simp [List.lookup])
    rw [h, if_neg (by norm_num)]
  · exact ((C2_cooldown 3 [] "s" "eyes_looking_away" 0 0 0 1 5).2.2
      (by norm_num) (by norm_num)).2.2.2

/-- C3: calibration completes exactly once, after exactly K = 10
head-pose samples: after 9 samples the tracker is not calibrated; the
flag flips to true on the 10th sample; the buffer holds exactly the 10
fed samples and the neutral baseline is the element-wise median of
them; a further sample changes nothing; and feeding 10 identical
samples `(p, y, r)` yields baseline exactly `(p, y, r)`. -/
theorem C3_calibration (p1 y1 r1 p2 y2 r2 p3 y3 r3 p4 y4 r4 p5 y5 r5
    p6 y6 r6 p7 y7 r7 p8 y8 r8 p9 y9 r9 p10 y10 r10 ep ey er p y r : ℚ) :
    (feedCal initEyeState [(p1, y1, r1), (p2, y2, r2), (p3, y3, r3),
       (p4, y4, r4), (p5, y5, r5), (p6, y6, r6), (p7, y7, r7),
       (p8, y8, r8), (p9, y9, r9)]).is_calibrated = false ∧
    (feedCal initEyeState [(p1, y1, r1), (p2, y2, r2), (p3, y3, r3),
       (p4, y4, r4), (p5, y5, r5), (p6, y6, r6), (p7, y7, r7),
       (p8, y8, r8), (p9, y9, r9), (p10, y10, r10)]).is_calibrated = true ∧
    (feedCal initEyeState [(p1, y1, r1), (p2, y2, r2), (p3, y3, r3),
       (p4, y4, r4), (p5, y5, r5), (p6, y6, r6), (p7, y7, r7),
       (p8, y8, r8), (p9, y9, r9), (p10, y10, r10)]).calibration_frames =
      [(p1, y1, r1), (p2, y2, r2), (p3, y3, r3), (p4, y4, r4),
       (p5, y5, r5), (p6, y6, r6), (p7, y7, r7), (p8, y8, r8),
       (p9, y9, r9), (p10, y10, r10)] ∧
    (feedCal initEyeState [(p1, y1, r1), (p2, y2, r2), (p3, y3, r3),
       (p4, y4, r4), (p5, y5, r5), (p6, y6, r6), (p7, y7, r7),
       (p8, y8, r8), (p9, y9, r9), (p10, y10, r10)]).neutral_pitch =
      npMedian [p1, p2, p3, p4, p5, p6, p7, p8, p9, p10] ∧
    (feedCal initEyeState [(p1, y1, r1), (p2, y2, r2), (p3, y3, r3),
       (p4, y4, r4), (p5, y5, r5), (p6, y6, r6), (p7, y7, r7),
       (p8, y8, r8), (p9, y9, r9), (p10, y10, r10)]).neutral_yaw =
      npMedian [y1, y2, y3, y4, y5, y6, y7, y8, y9, y10] ∧
    (feedCal initEyeState [(p1, y1, r1), (p2, y2, r2), (p3, y3, r3),
       (p4, y4, r4), (p5, y5, r5), (p6, y6, r6), (p7, y7, r7),
       (p8, y8, r8), (p9, y9, r9), (p10, y10, r10)]).neutral_roll =
      npMedian [r1, r2, r3, r4, r5, r6, r7, r8, r9, r10] ∧
    calibrate (feedCal initEyeState [(p1, y1, r1), (p2, y2, r2),
       (p3, y3, r3), (p4, y4, r4), (p5, y5, r5), (p6, y6, r6),
       (p7, y7, r7), (p8, y8, r8), (p9, y9, r9), (p10, y10, r10)])
       ep ey er =
      feedCal initEyeState [(p1, y1, r1), (p2, y2, r2), (p3, y3, r3),
       (p4, y4, r4), (p5, y5, r5), (p6, y6, r6), (p7, y7, r7),
       (p8, y8, r8), (p9, y9, r9), (p10, y10, r10)] ∧
    (feedCal initEyeState (List.replicate 10 (p, y, r))).is_calibrated =
      true ∧
    (feedCal initEyeState (List.replicate 10 (p, y, r))).neutral_pitch = p ∧
    (feedCal initEyeState (List.replicate 10 (p, y, r))).neutral_yaw = y ∧
    (feedCal initEyeState (List.replicate 10 (p, y, r))).neutral_roll = r := by
  refine ⟨?_, ?_, ?_, ?_, ?_, ?_, ?_, ?_, ?_, ?_, ?_⟩
  · simp +decide [feedCal, calibrate, initEyeState]
  · simp +decide [feedCal, calibrate, initEyeState]
  · simp +decide [feedCal, calibrate, initEyeState]
  · simp +decide [feedCal, calibrate, initEyeState]
  · simp +decide [feedCal, calibrate, initEyeState]
  · simp +decide [feedCal, calibrate, initEyeState]
  · simp +decide [feedCal, calibrate, initEyeState]
  · simp +decide [feedCal, calibrate, initEyeState, List.replicate]
  · simp +decide [feedCal, calibrate, initEyeState, List.replicate]
    exact npMedian_allEq _ p (by simp) (fun x hx => by simpa using hx)
  · simp +decide [feedCal, calibrate, initEyeState, List.replicate]
    exact npMedian_allEq _ y (by simp) (fun x hx => by simpa using hx)
  · simp +decide [feedCal, calibrate, initEyeState, List.replicate]
    exact npMedian_allEq _ r (by simp) (fun x hx => by simpa using hx)

/-- C4: the head-pose decision matches the spec's deviation rule
(deviation from the neutral baseline after calibration, raw angles
against a zero baseline before), and in `track_gaze`'s fusion the final
flag and direction come from the head-pose estimate whenever it signals
looking-away or the iris estimate is unavailable, and from the iris
estimate otherwise. -/
theorem C4_gaze_rule_and_fusion (st : EyeState) (iris : Option IrisEstimate)
    (ir : IrisEstimate) (p y r now : ℚ) :
    (st.is_calibrated = true →
       isLookingAway st p y r =
         specHeadPoseRule (p - st.neutral_pitch) (y - st.neutral_yaw)
           st.head_rotation_threshold) ∧
    (st.is_calibrated = false →
       isLookingAway st p y r =
         specHeadPoseRule p y st.head_rotation_threshold) ∧
    (st.is_calibrated = true →
       ((iris = Option.none ∨ (isLookingAway st p y r).1 = true →
           (trackGaze st (some { iris := iris, pose := some (p, y, r) })
               now).1.lookup "looking_away" =
             some (Val.b (isLookingAway st p y r).1) ∧
           (trackGaze st (some { iris := iris, pose := some (p, y, r) })
               now).1.lookup "gaze_direction" =
             some (Val.s (isLookingAway st p y r).2)) ∧
        (iris = some ir → (isLookingAway st p y r).1 = false →
           (trackGaze st (some { iris := iris, pose := some (p, y, r) })
               now).1.lookup "looking_away" =
             some (Val.b ir.looking_away) ∧
           (trackGaze st (some { iris := iris, pose := some (p, y, r) })
               now).1.lookup "gaze_direction" =
             some (Val.s ir.direction)))) := by
  refine ⟨fun h => ?_, fun h => ?_, fun h => ⟨?_, ?_⟩⟩
  · simp [isLookingAway, specHeadPoseRule, h]
  · simp [isLookingAway, specHeadPoseRule, h]
  · intro hcase
    rcases hcase with hnone | hhead
    · subst hnone
      simp +decide [trackGaze, h, List.lookup]
    · simp +decide [trackGaze, h, hhead, List.lookup]
  · intro hsome hfalse
    subst hsome
    simp +decide [trackGaze, h, hfalse, List.lookup]

/-- Witness for C4: a calibrated tracker at zero baseline, a frame with
yaw 40 and no iris estimate reports looking away to the right, and the
fused dictionary carries the head-pose verdict. -/
theorem C4_gaze_rule_and_fusion_witness :
    isLookingAway calibEye 0 40 0 =
      specHeadPoseRule (0 - calibEye.neutral_pitch)
        (40 - calibEye.neutral_yaw) calibEye.head_rotation_threshold ∧
    isLookingAway initEyeState 0 40 0 =
      specHeadPoseRule 0 40 initEyeState.head_rotation_threshold ∧
    (trackGaze calibEye
        (some { iris := Option.none, pose := some (0, 40, 0) }) 1).1.lookup
      "looking_away" = some (Val.b (isLookingAway calibEye 0 40 0).1) ∧
    (trackGaze calibEye
        (some { iris := Option.none, pose := some (0, 40, 0) }) 1).1.lookup
      "gaze_direction" = some (Val.s (isLookingAway calibEye 0 40 0).2) ∧
    (trackGaze calibEye
        (some { iris := some { looking_away := false, direction := "center" }
                pose := some (0, 10, 0) }) 1).1.lookup
      "looking_away" = some (Val.b false) ∧
    (trackGaze calibEye
        (some { iris := some { looking_away := false, direction := "center" }
                pose := some (0, 10, 0) }) 1).1.lookup
      "gaze_direction" = some (Val.s "center") := by
  have h1 := C4_gaze_rule_and_fusion calibEye Option.none
    { looking_away := false, direction := "center" } 0 40 0 1
  have h2 := C4_gaze_rule_and_fusion initEyeState Option.none
    { looking_away := false, direction := "center" } 0 40 0 1
  have h3 := C4_gaze_rule_and_fusion calibEye
    (some { looking_away := false, direction := "center" })
    { looking_away := false, direction := "center" } 0 10 0 1
  have hfuse := (h1.2.2 rfl).1 (Or.inl rfl)
  have hiris := (h3.2.2 rfl).2 rfl
    (by norm_num [isLookingAway, ratAbs, calibEye, initEyeState])
  exact ⟨h1.1 rfl, h2.2.1 rfl, hfuse.1, hfuse.2, hiris.1, hiris.2⟩

/-- C5 counterexample: calling `should_process_frame` on a black frame
returns the `black_screen` verdict but leaves the processed-frame
counter unchanged (0, not 1), because the counter is incremented inside
`is_duplicate_frame`, which the black-screen early return never
reaches. -/
theorem C5_counterexample :
    (shouldProcessFrame ssimZero initFrameAnalyzer blackFrame 1).1 =
      (false, "black_screen") ∧
    (shouldProcessFrame ssimZero initFrameAnalyzer blackFrame 1).2.frame_count =
      initFrameAnalyzer.frame_count ∧
    (shouldProcessFrame ssimZero initFrameAnalyzer blackFrame 1).2.frame_count ≠
      initFrameAnalyzer.frame_count + 1 := by
  refine ⟨?_, ?_, ?_⟩ <;> decide

/-- C5 amended: `should_process_frame` increments the per-session
processed-frame counter exactly on the calls that reach the duplicate
check (verdicts `ok` and `duplicate_frame`); calls rejected as
`black_screen` or `frame_skipped` leave the counter unchanged. -/
theorem C5_frame_counter (ssimFn : Frame → Frame → ℚ)
    (st : FrameAnalyzerState) (f : Frame) (skip_mod : ℕ) :
    (shouldProcessFrame ssimFn st f skip_mod).2.frame_count =
      (if (shouldProcessFrame ssimFn st f skip_mod).1.2 = "black_screen" ∨
          (shouldProcessFrame ssimFn st f skip_mod).1.2 = "frame_skipped"
       then st.frame_count else st.frame_count + 1) := by
  unfold shouldProcessFrame isDuplicateFrame
  by_cases h1 : isBlackScreen st f = true
  · simp [h1]
  · by_cases h2 : skip_mod > 1 ∧ st.frame_count % skip_mod ≠ 0
    · simp [h1, h2]
    · cases hp : st.previous_frame with
      | none => simp [h1, h2]
      | some prev =>
          by_cases hs : st.ssim_threshold < ssimFn prev f <;>
            simp [h1, h2, hs]

/-- C6 counterexample: a chunk whose energy jumps from the previous
chunk's 0 to 0.2 (a `sudden_change` anomaly with speech present, no
baseline spike) is anomalous but leaves the anomaly counter unchanged,
because only the `high_energy_spike` branch increments the counter. -/
theorem C6_counterexample :
    (analyzeAudio audioPrev0 (1/5) 0).1.anomaly_detected = true ∧
    (analyzeAudio audioPrev0 (1/5) 0).1.anomaly_type = some "sudden_change" ∧
    (analyzeAudio audioPrev0 (1/5) 0).2.anomaly_count =
      audioPrev0.anomaly_count ∧
    (analyzeAudio audioPrev0 (1/5) 0).2.anomaly_count ≠
      audioPrev0.anomaly_count + 1 := by
  refine ⟨?_, ?_, ?_, ?_⟩ <;>
    norm_num [analyzeAudio, audioPrev0, initAudioState, ratAbs]

/-- C6 amended: only `high_energy_spike` anomalies (energy above 2.5
times the set baseline) increment the anomaly counter, so the counter
is monotone; `sudden_change` sets the anomalous flag without touching
the counter; and the violation flag is true exactly when the (possibly
incremented) counter exceeds 3 and the current chunk is anomalous. -/
theorem C6_audio_anomalies (st : AudioState) (energy now : ℚ)
    (hb : ∀ b, st.baseline_energy = some b → 0 < b) :
    ((analyzeAudio st energy now).2.anomaly_count =
       (if specHighEnergySpike (analyzeAudio st energy now).2.baseline_energy
             energy = true
        then st.anomaly_count + 1 else st.anomaly_count)) ∧
    st.anomaly_count ≤ (analyzeAudio st energy now).2.anomaly_count ∧
    ((analyzeAudio st energy now).1.anomaly_detected =
       (specHighEnergySpike (analyzeAudio st energy now).2.baseline_energy
          energy ||
        specSuddenChange st.history.head? energy)) ∧
    ((analyzeAudio st energy now).1.violation =
       ((analyzeAudio st energy now).2.anomaly_count > 3 ∧
        (analyzeAudio st energy now).1.anomaly_detected = true)) := by
  have hhead : ((st.history.take 49).get? 0) = st.history.head? := by
    cases st.history <;> simp
  simp only [analyzeAudio, specHighEnergySpike, specSuddenChange,
    List.get?_cons_succ, hhead]
  rcases hbl : st.baseline_energy with _ | b0
  · by_cases hsp : (2/100 : ℚ) < energy
    · have he0 : energy ≠ 0 := ne_of_gt (lt_trans (by norm_num) hsp)
      have hmul : energy * (5/2) = 5/2 * energy := mul_comm _ _
      rcases hprev : st.history.head? with _ | prev <;>
        by_cases hspike : (5/2 : ℚ) * energy < energy <;>
          simp [hbl, hsp, hprev, hspike, hmul, he0, List.get?_cons_succ]
    · rcases hprev : st.history.head? with _ | prev <;>
        simp [hbl, hsp, hprev, List.get?_cons_succ]
  · have hbpos : 0 < b0 := hb b0 hbl
    have hb0 : b0 ≠ 0 := ne_of_gt hbpos
    have hmul : b0 * (5/2) = 5/2 * b0 := mul_comm _ _
    rcases hprev : st.history.head? with _ | prev <;>
      by_cases hspike : (5/2 : ℚ) * b0 < energy <;>
        simp [hbl, hprev, hspike, hmul, hb0, List.get?_cons_succ]

/-- C7 counterexample: when the Gemini response's JSON cannot be
parsed, the verification result has confidence 0.5, not the claimed
1.0 — which falls below the configured 0.7 threshold. -/
theorem C7_counterexample :
    (verifyEyeTrackingViolation true (GeminiCall.response Option.none)).verified
      = true ∧
    (verifyEyeTrackingViolation true (GeminiCall.response Option.none)).confidence
      = 1/2 ∧
    (verifyEyeTrackingViolation true (GeminiCall.response Option.none)).confidence
      ≠ 1 ∧
    ¬ (verifyEyeTrackingViolation true
        (GeminiCall.response Option.none)).confidence ≥ cfgAI.ai_threshold := by
  refine ⟨?_, ?_, ?_, ?_⟩ <;>
    norm_num [verifyEyeTrackingViolation, parseGeminiResponse, cfgAI]

/-- C7 amended: a network error from the model call fails open as
confirmed with confidence 1.0, so the otherwise-eligible violation still
produces an alert; a JSON parse failure instead yields confirmed with
confidence 0.5, which is below the 0.7 threshold, so the violation and
its alert are dropped. -/
theorem C7_fail_open :
    verifyEyeTrackingViolation true GeminiCall.networkError =
      { verified := true, confidence := 1 } ∧
    verifyEyeTrackingViolation true (GeminiCall.response Option.none) =
      { verified := true, confidence := 1/2 } ∧
    (processFrame ssimZero cfgAI svcEyesAway
        (eyesInput (verifyEyeTrackingViolation true GeminiCall.networkError) 3)
        "s").1.alerts =
      [{ atype := "eyes_looking_away", severity := "medium"
         requires_attention := false }] ∧
    (processFrame ssimZero cfgAI svcEyesAway
        (eyesInput (verifyEyeTrackingViolation true GeminiCall.networkError) 3)
        "s").1.violations =
      [{ vtype := "eyes_looking_away", severity := "medium" }] ∧
    (processFrame ssimZero cfgAI svcEyesAway
        (eyesInput (verifyEyeTrackingViolation true
           (GeminiCall.response Option.none)) 3) "s").1.alerts = [] ∧
    (processFrame ssimZero cfgAI svcEyesAway
        (eyesInput (verifyEyeTrackingViolation true
           (GeminiCall.response Option.none)) 3) "s").1.violations = [] := by
  refine ⟨?_, ?_, ?_, ?_, ?_, ?_⟩ <;>
  · norm_num [processFrame, shouldProcessFrame, isBlackScreen,
      isDuplicateFrame, trackGaze, violationStep, shouldCreateAlert,
      createAlert, getB, lookup_cons_if, eyesInput, svcEyesAway,
      eyeAwaySince0, initServiceState, initFrameAnalyzer, initEyeState,
      initAudioState, cfgAI, brightFrame, ssimZero,
      verifyEyeTrackingViolation, parseGeminiResponse]
    try simp

/-- C8 counterexample: the result `track_gaze` returns when no face is
detected does not contain the contract field `total_away_time` at all
(nor `alert_type`), so not every contract field is present. -/
theorem C8_counterexample :
    (trackGaze initEyeState Option.none 5).1.lookup "total_away_time" =
      Option.none ∧
    "total_away_time" ∉ (trackGaze initEyeState Option.none 5).1.map
      Prod.fst := by
  refine ⟨?_, ?_⟩ <;> decide

/-- C8 amended: with no face, `track_gaze` returns exactly the literal
no-face dictionary — `face_detected=false`, `looking_away=false`,
`gaze_direction='unknown'`, `duration=0`, `violation=false`, with no
`total_away_time` key — and leaves the tracker state (calibration
buffer, looking-away start, cumulative total) completely unchanged. -/
theorem C8_no_face (st : EyeState) (now : ℚ) :
    trackGaze st Option.none now = (noFaceGazeDict, st) ∧
    noFaceGazeDict.lookup "face_detected" = some (Val.b false) ∧
    noFaceGazeDict.lookup "looking_away" = some (Val.b false) ∧
    noFaceGazeDict.lookup "gaze_direction" = some (Val.s "unknown") ∧
    noFaceGazeDict.lookup "duration" = some (Val.q 0) ∧
    noFaceGazeDict.lookup "violation" = some (Val.b false) ∧
    noFaceGazeDict.lookup "total_away_time" = Option.none := by
  exact ⟨rfl, by decide, by decide, by decide, by decide, by decide, by decide⟩

/-- C9 counterexample: the gaze tracker is shared by all sessions, and
`start_session` for a new session resets it: starting session "s2"
wipes the calibration completed while session "s1" was running. -/
theorem C9_counterexample :
    calibratedSvc.eye_tracker.is_calibrated = true ∧
    (startSession calibratedSvc "s2" 0).eye_tracker.is_calibrated = false := by
  refine ⟨?_, ?_⟩ <;> decide

/-- C9 amended: `start_session(s2)` leaves the cooldown table and the
other sessions' `session_data` entries unchanged, but the frame
analyzer, gaze tracker and audio analyzer are single shared instances,
and it resets all three — destroying any per-session tracker state
accumulated for an already-running session `s1`. -/
theorem C9_start_session (st : ServiceState) (s1 s2 : String) (now : ℚ)
    (h : s1 ≠ s2) :
    (startSession st s2 now).last_alert_times = st.last_alert_times ∧
    (startSession st s2 now).session_data.lookup s1 =
      st.session_data.lookup s1 ∧
    (startSession st s2 now).eye_tracker = eyeReset st.eye_tracker ∧
    (startSession st s2 now).audio_analyzer = audioReset st.audio_analyzer ∧
    (startSession st s2 now).frame_analyzer =
      frameAnalyzerReset st.frame_analyzer := by
  have hne : (s1 == s2) = false := beq_eq_false_iff_ne.mpr h
  exact ⟨rfl, by simp [startSession, List.lookup, hne], rfl, rfl, rfl⟩

/-- Witness for C9 at concrete sessions "s1" and "s2". -/
theorem C9_start_session_witness :
    (startSession initServiceState "s2" 0).last_alert_times =
      initServiceState.last_alert_times ∧
    (startSession initServiceState "s2" 0).session_data.lookup "s1" =
      initServiceState.session_data.lookup "s1" ∧
    (startSession initServiceState "s2" 0).eye_tracker =
      eyeReset initServiceState.eye_tracker :=
  let h := C9_start_session initServiceState "s1" "s2" 0 (by decide)
  ⟨h.1, h.2.1, h.2.2.1⟩

/-- Witness for C6 at a concrete state (previous silent chunk, no
baseline) and a chunk of energy 0.2. -/
theorem C6_audio_anomalies_witness :
    ((analyzeAudio audioPrev0 (1/5) 0).2.anomaly_count =
       (if specHighEnergySpike
             (analyzeAudio audioPrev0 (1/5) 0).2.baseline_energy (1/5) = true
        then audioPrev0.anomaly_count + 1 else audioPrev0.anomaly_count)) ∧
    audioPrev0.anomaly_count ≤
      (analyzeAudio audioPrev0 (1/5) 0).2.anomaly_count ∧
    ((analyzeAudio audioPrev0 (1/5) 0).1.anomaly_detected =
       (specHighEnergySpike
          (analyzeAudio audioPrev0 (1/5) 0).2.baseline_energy (1/5) ||
        specSuddenChange audioPrev0.history.head? (1/5))) ∧
    ((analyzeAudio audioPrev0 (1/5) 0).1.violation =
       ((analyzeAudio audioPrev0 (1/5) 0).2.anomaly_count > 3 ∧
        (analyzeAudio audioPrev0 (1/5) 0).1.anomaly_detected = true)) :=
  C6_audio_anomalies audioPrev0 (1/5) 0
    (fun b h => by simp [audioPrev0, initAudioState] at h)

/-- C1 counterexample: with verification enabled, a threshold of 0.7
and a stub verifier confirming at confidence 0.4, a frame with an
otherwise-eligible eyes-looking-away violation (first call, cooldown
empty) produces an empty violations list — the violation is dropped
together with the alert, instead of being appended. -/
theorem C1_counterexample :
    getB (trackGaze svcEyesAway.eye_tracker
        (eyesInput stubVerifier04 3).face_mesh 3).1 "violation" = true ∧
    (processFrame ssimZero cfgAI svcEyesAway (eyesInput stubVerifier04 3)
        "s").1.violations = [] ∧
    (processFrame ssimZero cfgAI svcEyesAway (eyesInput stubVerifier04 3)
        "s").1.alerts = [] := by
  refine ⟨?_, ?_, ?_⟩ <;>
  · norm_num [processFrame, shouldProcessFrame, isBlackScreen,
      isDuplicateFrame, trackGaze, violationStep, shouldCreateAlert,
      createAlert, getB, lookup_cons_if, eyesInput, svcEyesAway,
      eyeAwaySince0, initServiceState, initFrameAnalyzer, initEyeState,
      initAudioState, cfgAI, stubVerifier04, brightFrame, ssimZero]
    try simp

/-- C1 amended: a violation detected while the cooldown admits and AI
verification is enabled is appended (with its alert) only when the
verifier confirms with confidence at or above the threshold — a
verifier rejection appends neither the violation nor an alert; without
verification an admitted violation is appended with its alert; a
cooldown-suppressed violation is appended without an alert.  Hence with
the 0.4-confidence stub verifier, the first call (cooldown consumed,
verification rejects) appends nothing, and a second call within the
cooldown window appends the violation without an alert. -/
theorem C1_violation_recording (cfg : Config) (cooldown : ℚ)
    (last : List (String × ℚ)) (sid : String) (v : Violation)
    (ver : VerifyResult) (now : ℚ) :
    ((violationStep cfg cooldown last sid v ver now).1 =
       if (shouldCreateAlert cooldown last sid v.vtype now).1 = true ∧
          cfg.enable_ai = true ∧
          ¬(ver.verified = true ∧ ver.confidence ≥ cfg.ai_threshold)
       then [] else [v]) ∧
    ((violationStep cfg cooldown last sid v ver now).2.1 =
       if (shouldCreateAlert cooldown last sid v.vtype now).1 = true ∧
          (cfg.enable_ai = true →
            ver.verified = true ∧ ver.confidence ≥ cfg.ai_threshold)
       then [createAlert v] else []) ∧
    (processFrame ssimZero cfgAI svcEyesAway (eyesInput stubVerifier04 3)
        "s").1.violations = [] ∧
    (processFrame ssimZero cfgAI svcEyesAway (eyesInput stubVerifier04 3)
        "s").1.alerts = [] ∧
    (processFrame ssimZero cfgAI
        (processFrame ssimZero cfgAI svcEyesAway (eyesInput stubVerifier04 3)
          "s").2
        (eyesInput stubVerifier04 4) "s").1.violations =
      [{ vtype := "eyes_looking_away", severity := "medium" }] ∧
    (processFrame ssimZero cfgAI
        (processFrame ssimZero cfgAI svcEyesAway (eyesInput stubVerifier04 3)
          "s").2
        (eyesInput stubVerifier04 4) "s").1.alerts = [] := by
  refine ⟨?_, ?_, ?_, ?_, ?_, ?_⟩
  · by_cases h1 : (shouldCreateAlert cooldown last sid v.vtype now).1 = true <;>
      by_cases h2 : cfg.enable_ai = true <;>
        by_cases h3 : ver.verified = true ∧ ver.confidence ≥ cfg.ai_threshold <;>
          simp [violationStep, h1, h2, h3]
  · by_cases h1 : (shouldCreateAlert cooldown last sid v.vtype now).1 = true <;>
      by_cases h2 : cfg.enable_ai = true <;>
        by_cases h3 : ver.verified = true ∧ ver.confidence ≥ cfg.ai_threshold <;>
          simp [violationStep, h1, h2, h3]
  all_goals
  · norm_num [processFrame, shouldProcessFrame, isBlackScreen,
      isDuplicateFrame, trackGaze, violationStep, shouldCreateAlert,
      createAlert, getB, lookup_cons_if, eyesInput, svcEyesAway,
      eyeAwaySince0, initServiceState, initFrameAnalyzer, initEyeState,
      initAudioState, cfgAI, stubVerifier04, brightFrame, ssimZero]
    try simp
    try norm_num

/-- C10: a frame satisfying the black-screen predicate is rejected by
the gate with status `skipped` and reason `black_screen` before the
violation pipeline runs, with no violations and no alerts; and on no
frame whatsoever does `process_frame` emit a violation or an alert of
type `black_screen` — the in-pipeline black-screen branch is
unreachable. -/
theorem C10_black_screen_unreachable (ssimFn : Frame → Frame → ℚ)
    (cfg : Config) (st : ServiceState) (inp : FrameInputs) (sid : String) :
    (isBlackScreen st.frame_analyzer inp.frame = true →
       (processFrame ssimFn cfg st inp sid).1.status = "skipped" ∧
       (processFrame ssimFn cfg st inp sid).1.skip_reason =
         some "black_screen" ∧
       (processFrame ssimFn cfg st inp sid).1.violations = [] ∧
       (processFrame ssimFn cfg st inp sid).1.alerts = []) ∧
    "black_screen" ∉
      ((processFrame ssimFn cfg st inp sid).1.violations.map
        Violation.vtype) ∧
    "black_screen" ∉
      ((processFrame ssimFn cfg st inp sid).1.alerts.map Alert.atype) := by
  by_cases hb : isBlackScreen st.frame_analyzer inp.frame = true
  · have hgate : shouldProcessFrame ssimFn st.frame_analyzer inp.frame
        st.frame_skip_mod = ((false, "black_screen"), st.frame_analyzer) := by
      unfold shouldProcessFrame
      rw [if_pos hb]
    refine ⟨fun _ => ?_, ?_, ?_⟩ <;> simp [processFrame, hgate]
  · have hb2 : isBlackScreen
        (shouldProcessFrame ssimFn st.frame_analyzer inp.frame
          st.frame_skip_mod).2 inp.frame = false := by
      unfold isBlackScreen at hb ⊢
      rw [shouldProcessFrame_black_threshold]
      simpa using hb
    refine ⟨fun h => absurd h hb, ?_, ?_⟩
    · intro hmem
      simp only [processFrame] at hmem
      by_cases hok : (shouldProcessFrame ssimFn st.frame_analyzer inp.frame
          st.frame_skip_mod).1.1 = true
      · rw [if_neg (by simp [hok])] at hmem
        simp only [hb2, Bool.false_eq_true, if_false, List.nil_append,
          List.map_append, List.mem_append] at hmem
        rcases hmem with (h | h) | h
        · exact not_mem_ite_violationStep_vtype _ _ _ _ _ _ _ _ (by simp) h
        · exact not_mem_ite_violationStep_vtype _ _ _ _ _ _ _ _ (by simp) h
        · exact not_mem_ite_violationStep_vtype _ _ _ _ _ _ _ _ (by simp) h
      · rw [if_pos (by simp [hok])] at hmem
        simp at hmem
    · intro hmem
      simp only [processFrame] at hmem
      by_cases hok : (shouldProcessFrame ssimFn st.frame_analyzer inp.frame
          st.frame_skip_mod).1.1 = true
      · rw [if_neg (by simp [hok])] at hmem
        simp only [hb2, Bool.false_eq_true, if_false, List.nil_append,
          List.map_append, List.mem_append] at hmem
        rcases hmem with (h | h) | h
        · exact not_mem_ite_violationStep_atype _ _ _ _ _ _ _ _ (by simp) h
        · exact not_mem_ite_violationStep_atype _ _ _ _ _ _ _ _ (by simp) h
        · exact not_mem_ite_violationStep_atype _ _ _ _ _ _ _ _ (by simp) h
      · rw [if_pos (by simp [hok])] at hmem
        simp at hmem

/-- Witness for C10 on a concrete black frame: the result is skipped
with reason `black_screen` and no violations or alerts. -/
theorem C10_black_screen_unreachable_witness :
    (processFrame ssimZero cfgAI initServiceState blackInput "s").1.status =
      "skipped" ∧
    (processFrame ssimZero cfgAI initServiceState blackInput "s").1.skip_reason
      = some "black_screen" ∧
    (processFrame ssimZero cfgAI initServiceState blackInput "s").1.violations
      = [] ∧
    (processFrame ssimZero cfgAI initServiceState blackInput "s").1.alerts
      = [] :=
  (C10_black_screen_unreachable ssimZero cfgAI initServiceState blackInput
    "s").1 (by norm_num [isBlackScreen, initServiceState, initFrameAnalyzer,
      blackInput, eyesInput, blackFrame])

end AiProctor
